import Mathlib

/-!
Verification development for the Garmin biometric scoring engine
(`app/garmin_sync.py` and the period-range helper of `app/__init__.py`).

Numeric telemetry is embedded as `Option ℚ` (DB columns are nullable
integers/floats); Python truthiness tests (`if metric.x:`) become `truthy`,
Python `x or 0` becomes `orZero`, Python `int(...)` becomes truncation
toward zero, and Python `round(x, 1)` becomes `round1` (ties resolved
upward here; Python resolves exact ties to even — no value appearing in
the claims sits on a tie).
-/

namespace GarminWhoop

/-- Python truthiness of an optional numeric field: `if metric.x:` holds
exactly when the field is present and non-zero. -/
def truthy (o : Option ℚ) : Bool :=
  match o with
  | none => false
  | some v => v != 0

/-- Python `x or 0` on an optional numeric field (`None` and `0` both map to `0`). -/
def orZero (o : Option ℚ) : ℚ := o.getD 0

/-- Python `int(...)`: truncation toward zero. -/
def int_trunc (q : ℚ) : ℤ := if 0 ≤ q then ⌊q⌋ else ⌈q⌉

/-- Python `round(x, 1)`: round to one decimal place. -/
def round1 (q : ℚ) : ℚ := (round (10 * q) : ℤ) / 10

/-- The fields of the `DailyMetric` model (`app/models.py`) read or written by
`_calculate_scores` / `_calculate_biological_age`. Raw telemetry first, then
the derived fields the engine writes. -/
@[ext]
structure DailyMetric where
  resting_hr : Option ℚ := none
  vo2_max : Option ℚ := none
  sleep_seconds : Option ℚ := none
  deep_sleep_seconds : Option ℚ := none
  rem_sleep_seconds : Option ℚ := none
  steps : Option ℚ := none
  moderate_intensity_minutes : Option ℚ := none
  vigorous_intensity_minutes : Option ℚ := none
  body_battery_high : Option ℚ := none
  active_calories : Option ℚ := none
  stress_avg : Option ℚ := none
  recovery_score : Option ℤ := none
  strain_score : Option ℚ := none
  sleep_performance : Option ℤ := none
  biological_age : Option ℚ := none
  bio_age_rhr_impact : Option ℚ := none
  bio_age_vo2_impact : Option ℚ := none
  bio_age_sleep_impact : Option ℚ := none
  bio_age_steps_impact : Option ℚ := none
  bio_age_hrz_impact : Option ℚ := none
  bio_age_stress_impact : Option ℚ := none
deriving DecidableEq

/-- The piecewise sleep-duration score inside the recovery computation
(`garmin_sync.py` lines 353-360). -/
def sleep_duration_score (sleep_hours : ℚ) : ℚ :=
  if 7 ≤ sleep_hours then 100
  else if 6 ≤ sleep_hours then 80
  else if 5 ≤ sleep_hours then 60
  else max 0 (sleep_hours / 5 * 60)

/-- The sleep component of recovery (`garmin_sync.py` lines 350-370):
duration score, averaged with a deep+REM quality score when both phases
are known. -/
def sleep_recovery_score (m : DailyMetric) : ℚ :=
  let sleep_hours := orZero m.sleep_seconds / 3600
  let dur := sleep_duration_score sleep_hours
  if truthy m.deep_sleep_seconds && truthy m.rem_sleep_seconds then
    let quality_frac :=
      (orZero m.deep_sleep_seconds + orZero m.rem_sleep_seconds) / orZero m.sleep_seconds
    let quality_score := min 100 (quality_frac / (2/5) * 100)
    (dur + quality_score) / 2
  else dur

/-- The `(value, weight)` component list built by the recovery computation
(`garmin_sync.py` lines 332-370): body battery (weight 0.4), RHR vs a fixed
baseline of 60 (weight 0.3), sleep (weight 0.3). -/
def recovery_components (m : DailyMetric) : List (ℚ × ℚ) :=
  (if truthy m.body_battery_high then
    [(min 100 (orZero m.body_battery_high), 2/5)] else []) ++
  (if truthy m.resting_hr then
    [(max 0 (min 100 (100 - (orZero m.resting_hr - 60) * 3)), 3/10)] else []) ++
  (if truthy m.sleep_seconds then [(sleep_recovery_score m, 3/10)] else [])

/-- Recovery step of `_calculate_scores` (lines 330-376): the field is
assigned only when at least one component exists. -/
def apply_recovery (m : DailyMetric) : DailyMetric :=
  let cs := recovery_components m
  if cs = [] then m
  else
    let total_weight := (cs.map Prod.snd).sum
    let weighted_sum := (cs.map (fun c => c.1 * c.2)).sum
    { m with recovery_score := some (int_trunc (weighted_sum / total_weight)) }

/-- The strain accumulator of `_calculate_scores` (lines 378-394), before
the cap at 21. -/
def strain_value (m : DailyMetric) : ℚ :=
  let moderate := orZero m.moderate_intensity_minutes
  let vigorous := orZero m.vigorous_intensity_minutes
  let s1 := moderate * (1/20) + vigorous * (3/20)
  let s2 := if truthy m.active_calories then s1 + orZero m.active_calories / 100 else s1
  if truthy m.stress_avg && decide (50 < orZero m.stress_avg) then
    s2 + (orZero m.stress_avg - 50) / 50
  else s2

/-- Strain step of `_calculate_scores` (line 395): always assigned. -/
def apply_strain (m : DailyMetric) : DailyMetric :=
  { m with strain_score := some (min 21 (round1 (strain_value m))) }

/-- Sleep-performance step of `_calculate_scores` (lines 397-414): assigned
only when `sleep_seconds` is truthy. -/
def apply_sleep_performance (m : DailyMetric) : DailyMetric :=
  if truthy m.sleep_seconds then
    let sleep_hours := orZero m.sleep_seconds / 3600
    let duration_pct := min 100 (sleep_hours / 8 * 100)
    let quality_pct :=
      if truthy m.deep_sleep_seconds && truthy m.rem_sleep_seconds &&
          decide (0 < orZero m.sleep_seconds) then
        let deep_pct := orZero m.deep_sleep_seconds / orZero m.sleep_seconds
        let rem_pct := orZero m.rem_sleep_seconds / orZero m.sleep_seconds
        let deep_score := min 100 (deep_pct / (7/40) * 100)
        let rem_score := min 100 (rem_pct / (9/40) * 100)
        (deep_score + rem_score) / 2
      else 50
    { m with sleep_performance := some (int_trunc (duration_pct * (3/5) + quality_pct * (2/5))) }
  else m

/-- Factor 1 of `_calculate_biological_age` (lines 433-438): RHR impact,
clamped to `[-1, 1]` around a baseline of 60 bpm. -/
def rhr_impact (m : DailyMetric) : Option ℚ :=
  if truthy m.resting_hr && decide (0 < orZero m.resting_hr) then
    some (max (-1) (min 1 ((orZero m.resting_hr - 60) / 20)))
  else none

/-- Factor 2 (lines 440-445): VO2 max impact, baseline 42, span 13. -/
def vo2_impact (m : DailyMetric) : Option ℚ :=
  if truthy m.vo2_max && decide (0 < orZero m.vo2_max) then
    some (max (-1) (min 1 ((42 - orZero m.vo2_max) / 13)))
  else none

/-- Factor 3 (lines 447-457): sleep-duration impact, optimal band 7-8.5 h. -/
def sleep_impact (m : DailyMetric) : Option ℚ :=
  if truthy m.sleep_seconds && decide (0 < orZero m.sleep_seconds) then
    let sleep_hours := orZero m.sleep_seconds / 3600
    some (if 7 ≤ sleep_hours ∧ sleep_hours ≤ 17/2 then -(3/10)
      else if sleep_hours < 7 then min 1 ((7 - sleep_hours) / 3)
      else min (1/2) ((sleep_hours - 17/2) / 3))
  else none

/-- Factor 4 (lines 459-475): step-count impact over fixed breakpoints. -/
def steps_impact (m : DailyMetric) : Option ℚ :=
  if truthy m.steps && decide (0 < orZero m.steps) then
    let s := orZero m.steps
    some (if 12000 ≤ s then -(4/5)
      else if 10000 ≤ s then -(1/2)
      else if 8000 ≤ s then -(1/5)
      else if 6000 ≤ s then 0
      else if 4000 ≤ s then 3/10
      else if 2000 ≤ s then 3/5
      else 1)
  else none

/-- The intensity score `moderate + 2 × vigorous` of line 480. -/
def intensity_score (m : DailyMetric) : ℚ :=
  orZero m.moderate_intensity_minutes + orZero m.vigorous_intensity_minutes * 2

/-- Factor 5 (lines 477-495): intensity-minutes impact; computable when the
score is positive, or when both minute counts are zero but step data exists. -/
def hrz_impact (m : DailyMetric) : Option ℚ :=
  let moderate := orZero m.moderate_intensity_minutes
  let vigorous := orZero m.vigorous_intensity_minutes
  let score := moderate + vigorous * 2
  if decide (0 < score) ||
      (decide (moderate = 0) && decide (vigorous = 0) &&
        truthy m.steps && decide (0 < orZero m.steps)) then
    some (if 60 ≤ score then -(4/5)
      else if 45 ≤ score then -(1/2)
      else if 30 ≤ score then -(1/5)
      else if 15 ≤ score then 0
      else if 5 ≤ score then 3/10
      else 1/2)
  else none

/-- The computable impacts, in the insertion order of the Python dict. -/
def impacts_list (m : DailyMetric) : List ℚ :=
  [rhr_impact m, vo2_impact m, sleep_impact m, steps_impact m, hrz_impact m].filterMap id

/-- Number of computable biological-age factors for the day. -/
def num_factors (m : DailyMetric) : ℕ := (impacts_list m).length

/-- Embedding of `_calculate_biological_age` (lines 419-526): requires at least 2
computable factors, else explicitly nulls every derived bio-age field;
otherwise averages the impacts, scales by `MAX_YEARS = 8`, and writes
rounded per-factor attributions. -/
def calculate_biological_age (m : DailyMetric) (real_age : ℚ) : DailyMetric :=
  let impacts := impacts_list m
  if impacts.length < 2 then
    { m with biological_age := none,
             bio_age_rhr_impact := none,
             bio_age_vo2_impact := none,
             bio_age_sleep_impact := none,
             bio_age_steps_impact := none,
             bio_age_hrz_impact := none,
             bio_age_stress_impact := none }
  else
    let avg_impact := impacts.sum / (impacts.length : ℚ)
    let final_impact := avg_impact * 8
    let scale := 8 / (impacts.length : ℚ)
    { m with
        bio_age_rhr_impact := (rhr_impact m).map (fun i => round1 (i * scale)),
        bio_age_vo2_impact := (vo2_impact m).map (fun i => round1 (i * scale)),
        bio_age_sleep_impact := (sleep_impact m).map (fun i => round1 (i * scale)),
        bio_age_steps_impact := (steps_impact m).map (fun i => round1 (i * scale)),
        bio_age_hrz_impact := (hrz_impact m).map (fun i => round1 (i * scale)),
        bio_age_stress_impact := none,
        biological_age := some (round1 (real_age + final_impact)) }

/-- Embedding of `_calculate_scores` (lines 327-417): recovery, strain, sleep
performance, then biological age, in source order. -/
def calculate_scores (m : DailyMetric) (real_age : ℚ) : DailyMetric :=
  calculate_biological_age
    (apply_sleep_performance (apply_strain (apply_recovery m))) real_age

/-- The activity fields read by `_calculate_activity_strain` (all fetched
with `activity.get(key, 0) or 0`). -/
structure ActivityData where
  aerobicTrainingEffect : Option ℚ := none
  anaerobicTrainingEffect : Option ℚ := none
  hrTimeInZone_4 : Option ℚ := none
  hrTimeInZone_5 : Option ℚ := none
  duration : Option ℚ := none
deriving DecidableEq

/-- Embedding of `_calculate_activity_strain` (lines 528-549). -/
def calculate_activity_strain (a : ActivityData) : ℚ :=
  let aerobic := orZero a.aerobicTrainingEffect
  let anaerobic := orZero a.anaerobicTrainingEffect
  let zone4 := orZero a.hrTimeInZone_4
  let zone5 := orZero a.hrTimeInZone_5
  let dur := orZero a.duration
  let strain := aerobic * 2 + anaerobic * (3/2) +
    ((zone4 / 60) * (3/10) + (zone5 / 60) * (1/2)) + (dur / 3600) * (1/2)
  min 21 (round1 strain)

/-- Gregorian leap-year test (as implemented by Python `datetime.date`). -/
def is_leap (y : ℤ) : Bool :=
  (y % 4 == 0 && y % 100 != 0) || y % 400 == 0

/-- Number of days in a Gregorian month. -/
def days_in_month (y : ℤ) (mth : ℤ) : ℤ :=
  if mth = 2 then (if is_leap y then 29 else 28)
  else if mth = 4 ∨ mth = 6 ∨ mth = 9 ∨ mth = 11 then 30
  else 31

/-- A calendar date as in `datetime.date`. -/
structure Date where
  year : ℤ
  month : ℤ
  day : ℤ
deriving DecidableEq

/-- Python `d - timedelta(days=1)` on a Gregorian date. -/
def pred_day (d : Date) : Date :=
  if 1 < d.day then { d with day := d.day - 1 }
  else if 1 < d.month then
    { year := d.year, month := d.month - 1, day := days_in_month d.year (d.month - 1) }
  else { year := d.year - 1, month := 12, day := 31 }

/-- The `while target_month < 1` loop of `get_period_range`
(`app/__init__.py` lines 496-498): add 12 to the month, subtract 1 from
the year, until the month is at least 1. Returns `(month, year)`. -/
def norm_month_low (mth yr : ℤ) : ℤ × ℤ :=
  if mth < 1 then norm_month_low (mth + 12) (yr - 1) else (mth, yr)
termination_by (1 - mth).toNat
decreasing_by omega

/-- The `while target_month > 12` loop of `get_period_range`
(lines 499-501). Returns `(month, year)`. -/
def norm_month_high (mth yr : ℤ) : ℤ × ℤ :=
  if 12 < mth then norm_month_high (mth - 12) (yr + 1) else (mth, yr)
termination_by (mth - 12).toNat
decreasing_by omega

/-- The `'month'` branch of `get_period_range` (`app/__init__.py` lines
493-507), label omitted: normalize `today.month + off`, take the first of
that month as the start, and the day before the first of the following
month as the end. -/
def get_period_range_month (today : Date) (off : ℤ) : Date × Date :=
  let p1 := norm_month_low (today.month + off) today.year
  let p2 := norm_month_high p1.1 p1.2
  let target_month := p2.1
  let target_year := p2.2
  let start_date : Date := ⟨target_year, target_month, 1⟩
  let end_date : Date :=
    if target_month = 12 then pred_day ⟨target_year + 1, 1, 1⟩
    else pred_day ⟨target_year, target_month + 1, 1⟩
  (start_date, end_date)

/-- The recovery value written when at least one component exists:
`int(weighted_sum / total_weight)`. -/
def recovery_value (m : DailyMetric) : ℤ :=
  let cs := recovery_components m
  int_trunc ((cs.map (fun c => c.1 * c.2)).sum / (cs.map Prod.snd).sum)

/-- The sleep-performance value written when `sleep_seconds` is truthy. -/
def sleep_perf_value (m : DailyMetric) : ℤ :=
  let sleep_hours := orZero m.sleep_seconds / 3600
  let duration_pct := min 100 (sleep_hours / 8 * 100)
  let quality_pct :=
    if truthy m.deep_sleep_seconds && truthy m.rem_sleep_seconds &&
        decide (0 < orZero m.sleep_seconds) then
      let deep_pct := orZero m.deep_sleep_seconds / orZero m.sleep_seconds
      let rem_pct := orZero m.rem_sleep_seconds / orZero m.sleep_seconds
      (min 100 (deep_pct / (7/40) * 100) + min 100 (rem_pct / (9/40) * 100)) / 2
    else 50
  int_trunc (duration_pct * (3/5) + quality_pct * (2/5))

/-- Division that signals a zero denominator, mirroring Python `/`, which
raises `ZeroDivisionError` instead of returning a value. -/
def qdiv (a b : ℚ) : Option ℚ :=
  if b = 0 then none else some (a / b)

/-- Variant of `sleep_recovery_score` with its variable-denominator division
(`... / metric.sleep_seconds`, line 364) checked. -/
def sleep_recovery_score_checked (m : DailyMetric) : Option ℚ :=
  let sleep_hours := orZero m.sleep_seconds / 3600
  let dur := sleep_duration_score sleep_hours
  if truthy m.deep_sleep_seconds && truthy m.rem_sleep_seconds then
    (qdiv (orZero m.deep_sleep_seconds + orZero m.rem_sleep_seconds)
        (orZero m.sleep_seconds)).map
      (fun quality_frac => (dur + min 100 (quality_frac / (2/5) * 100)) / 2)
  else some dur

/-- The recovery component list with the quality-fraction division of the
sleep component (line 364) checked. -/
def recovery_components_checked (m : DailyMetric) : Option (List (ℚ × ℚ)) :=
  (if truthy m.sleep_seconds then
      (sleep_recovery_score_checked m).map (fun s => [(s, (3/10 : ℚ))])
    else some []).map (fun sleep =>
      (if truthy m.body_battery_high then
        [(min 100 (orZero m.body_battery_high), (2/5 : ℚ))] else []) ++
      (if truthy m.resting_hr then
        [(max 0 (min 100 (100 - (orZero m.resting_hr - 60) * 3)), (3/10 : ℚ))] else []) ++
      sleep)

/-- The recovery step with both variable-denominator divisions checked:
the quality fraction (line 364) and `weighted_sum / total_weight`
(line 376). -/
def apply_recovery_checked (m : DailyMetric) : Option DailyMetric :=
  (recovery_components_checked m).bind (fun cs =>
    if cs = [] then some m
    else
      (qdiv ((cs.map (fun c => c.1 * c.2)).sum) ((cs.map Prod.snd).sum)).map
        (fun q => { m with recovery_score := some (int_trunc q) }))

/-- The sleep-performance step with the two phase-fraction divisions by
`sleep_seconds` (lines 407-408) checked. -/
def apply_sleep_performance_checked (m : DailyMetric) : Option DailyMetric :=
  if truthy m.sleep_seconds then
    let sleep_hours := orZero m.sleep_seconds / 3600
    let duration_pct := min 100 (sleep_hours / 8 * 100)
    (if truthy m.deep_sleep_seconds && truthy m.rem_sleep_seconds &&
        decide (0 < orZero m.sleep_seconds) then
      (qdiv (orZero m.deep_sleep_seconds) (orZero m.sleep_seconds)).bind
        (fun deep_pct =>
          (qdiv (orZero m.rem_sleep_seconds) (orZero m.sleep_seconds)).map
            (fun rem_pct =>
              (min 100 (deep_pct / (7/40) * 100) + min 100 (rem_pct / (9/40) * 100)) / 2))
    else some 50).map
      (fun quality_pct =>
        let v := int_trunc (duration_pct * (3/5) + quality_pct * (2/5))
        { m with sleep_performance := some v })
  else some m

/-- Variant of `_calculate_biological_age` with the factor-mean division
`sum(impacts.values()) / len(impacts)` (line 509) checked. -/
def calculate_biological_age_checked (m : DailyMetric) (real_age : ℚ) :
    Option DailyMetric :=
  let impacts := impacts_list m
  if impacts.length < 2 then
    some { m with biological_age := none,
                  bio_age_rhr_impact := none,
                  bio_age_vo2_impact := none,
                  bio_age_sleep_impact := none,
                  bio_age_steps_impact := none,
                  bio_age_hrz_impact := none,
                  bio_age_stress_impact := none }
  else
    (qdiv impacts.sum (impacts.length : ℚ)).map (fun avg_impact =>
      let final_impact := avg_impact * 8
      let scale := 8 / (impacts.length : ℚ)
      { m with
          bio_age_rhr_impact := (rhr_impact m).map (fun i => round1 (i * scale)),
          bio_age_vo2_impact := (vo2_impact m).map (fun i => round1 (i * scale)),
          bio_age_sleep_impact := (sleep_impact m).map (fun i => round1 (i * scale)),
          bio_age_steps_impact := (steps_impact m).map (fun i => round1 (i * scale)),
          bio_age_hrz_impact := (hrz_impact m).map (fun i => round1 (i * scale)),
          bio_age_stress_impact := none,
          biological_age := some (round1 (real_age + final_impact)) })

/-- Variant of `_calculate_scores` with every variable-denominator division checked;
`none` would mean a `ZeroDivisionError` in the Python source. -/
def calculate_scores_checked (m : DailyMetric) (real_age : ℚ) :
    Option DailyMetric :=
  (apply_recovery_checked m).bind (fun m1 =>
    (apply_sleep_performance_checked (apply_strain m1)).bind (fun m2 =>
      calculate_biological_age_checked m2 real_age))

/-! ### Raw-field preservation and congruence -/

/-- Two metrics agree on every raw telemetry field the engine reads. -/
def RawEq (a b : DailyMetric) : Prop :=
  a.resting_hr = b.resting_hr ∧ a.vo2_max = b.vo2_max ∧
  a.sleep_seconds = b.sleep_seconds ∧ a.deep_sleep_seconds = b.deep_sleep_seconds ∧
  a.rem_sleep_seconds = b.rem_sleep_seconds ∧ a.steps = b.steps ∧
  a.moderate_intensity_minutes = b.moderate_intensity_minutes ∧
  a.vigorous_intensity_minutes = b.vigorous_intensity_minutes ∧
  a.body_battery_high = b.body_battery_high ∧ a.active_calories = b.active_calories ∧
  a.stress_avg = b.stress_avg

lemma rawEq_refl (m : DailyMetric) : RawEq m m :=
  ⟨rfl, rfl, rfl, rfl, rfl, rfl, rfl, rfl, rfl, rfl, rfl⟩

lemma rawEq_trans {a b c : DailyMetric} (h1 : RawEq a b) (h2 : RawEq b c) : RawEq a c := by
  obtain ⟨e1, e2, e3, e4, e5, e6, e7, e8, e9, e10, e11⟩ := h1
  obtain ⟨f1, f2, f3, f4, f5, f6, f7, f8, f9, f10, f11⟩ := h2
  exact ⟨e1.trans f1, e2.trans f2, e3.trans f3, e4.trans f4, e5.trans f5, e6.trans f6,
    e7.trans f7, e8.trans f8, e9.trans f9, e10.trans f10, e11.trans f11⟩

lemma raw_apply_recovery (m : DailyMetric) : RawEq (apply_recovery m) m := by
  simp only [apply_recovery]
  split_ifs <;> exact rawEq_refl _

lemma raw_apply_strain (m : DailyMetric) : RawEq (apply_strain m) m := rawEq_refl _

lemma raw_apply_sleep_performance (m : DailyMetric) :
    RawEq (apply_sleep_performance m) m := by
  simp only [apply_sleep_performance]
  split_ifs <;> exact rawEq_refl _

lemma raw_calculate_biological_age (m : DailyMetric) (age : ℚ) :
    RawEq (calculate_biological_age m age) m := by
  simp only [calculate_biological_age]
  split_ifs <;> exact rawEq_refl _

lemma raw_calculate_scores (m : DailyMetric) (age : ℚ) :
    RawEq (calculate_scores m age) m :=
  rawEq_trans (raw_calculate_biological_age _ _)
    (rawEq_trans (raw_apply_sleep_performance _)
      (rawEq_trans (raw_apply_strain _) (raw_apply_recovery m)))

lemma recovery_components_congr {a b : DailyMetric} (h : RawEq a b) :
    recovery_components a = recovery_components b := by
  obtain ⟨e1, e2, e3, e4, e5, e6, e7, e8, e9, e10, e11⟩ := h
  simp only [recovery_components, sleep_recovery_score, sleep_duration_score,
    e1, e3, e4, e5, e9]

lemma recovery_value_congr {a b : DailyMetric} (h : RawEq a b) :
    recovery_value a = recovery_value b := by
  simp only [recovery_value, recovery_components_congr h]

lemma strain_value_congr {a b : DailyMetric} (h : RawEq a b) :
    strain_value a = strain_value b := by
  obtain ⟨e1, e2, e3, e4, e5, e6, e7, e8, e9, e10, e11⟩ := h
  simp only [strain_value, e7, e8, e10, e11]

lemma sleep_perf_value_congr {a b : DailyMetric} (h : RawEq a b) :
    sleep_perf_value a = sleep_perf_value b := by
  obtain ⟨e1, e2, e3, e4, e5, e6, e7, e8, e9, e10, e11⟩ := h
  simp only [sleep_perf_value, e3, e4, e5]

lemma impacts_congr {a b : DailyMetric} (h : RawEq a b) :
    rhr_impact a = rhr_impact b ∧ vo2_impact a = vo2_impact b ∧
    sleep_impact a = sleep_impact b ∧ steps_impact a = steps_impact b ∧
    hrz_impact a = hrz_impact b := by
  obtain ⟨e1, e2, e3, e4, e5, e6, e7, e8, e9, e10, e11⟩ := h
  refine ⟨?_, ?_, ?_, ?_, ?_⟩ <;>
    simp only [rhr_impact, vo2_impact, sleep_impact, steps_impact, hrz_impact,
      e1, e2, e3, e6, e7, e8]

lemma impacts_list_congr {a b : DailyMetric} (h : RawEq a b) :
    impacts_list a = impacts_list b := by
  obtain ⟨i1, i2, i3, i4, i5⟩ := impacts_congr h
  simp only [impacts_list, i1, i2, i3, i4, i5]

/-! ### Stage characterization lemmas -/

lemma strain_preserves_recovery (m : DailyMetric) :
    (apply_strain m).recovery_score = m.recovery_score := rfl

lemma sleep_perf_preserves_recovery (m : DailyMetric) :
    (apply_sleep_performance m).recovery_score = m.recovery_score := by
  simp only [apply_sleep_performance]; split_ifs <;> rfl

lemma bio_preserves_recovery (m : DailyMetric) (age : ℚ) :
    (calculate_biological_age m age).recovery_score = m.recovery_score := by
  simp only [calculate_biological_age]; split_ifs <;> rfl

lemma apply_recovery_recovery (m : DailyMetric) :
    (apply_recovery m).recovery_score =
      if recovery_components m = [] then m.recovery_score
      else some (recovery_value m) := by
  simp only [apply_recovery, recovery_value]
  split_ifs <;> rfl

lemma scores_recovery (m : DailyMetric) (age : ℚ) :
    (calculate_scores m age).recovery_score =
      if recovery_components m = [] then m.recovery_score
      else some (recovery_value m) := by
  show (calculate_biological_age (apply_sleep_performance (apply_strain (apply_recovery m)))
    age).recovery_score = _
  rw [bio_preserves_recovery, sleep_perf_preserves_recovery, strain_preserves_recovery,
    apply_recovery_recovery]

lemma sleep_perf_preserves_strain (m : DailyMetric) :
    (apply_sleep_performance m).strain_score = m.strain_score := by
  simp only [apply_sleep_performance]; split_ifs <;> rfl

lemma bio_preserves_strain (m : DailyMetric) (age : ℚ) :
    (calculate_biological_age m age).strain_score = m.strain_score := by
  simp only [calculate_biological_age]; split_ifs <;> rfl

lemma scores_strain (m : DailyMetric) (age : ℚ) :
    (calculate_scores m age).strain_score =
      some (min 21 (round1 (strain_value m))) := by
  show (calculate_biological_age (apply_sleep_performance (apply_strain (apply_recovery m)))
    age).strain_score = _
  rw [bio_preserves_strain, sleep_perf_preserves_strain]
  show some (min 21 (round1 (strain_value (apply_recovery m)))) = _
  rw [strain_value_congr (raw_apply_recovery m)]

lemma apply_sleep_perf_field (m : DailyMetric) :
    (apply_sleep_performance m).sleep_performance =
      if truthy m.sleep_seconds then some (sleep_perf_value m)
      else m.sleep_performance := by
  simp only [apply_sleep_performance, sleep_perf_value]
  split_ifs <;> rfl

lemma bio_preserves_sleep_perf (m : DailyMetric) (age : ℚ) :
    (calculate_biological_age m age).sleep_performance = m.sleep_performance := by
  simp only [calculate_biological_age]; split_ifs <;> rfl

lemma scores_sleep_perf (m : DailyMetric) (age : ℚ) :
    (calculate_scores m age).sleep_performance =
      if truthy m.sleep_seconds then some (sleep_perf_value m)
      else m.sleep_performance := by
  show (calculate_biological_age (apply_sleep_performance (apply_strain (apply_recovery m)))
    age).sleep_performance = _
  rw [bio_preserves_sleep_perf, apply_sleep_perf_field]
  have hr : RawEq (apply_strain (apply_recovery m)) m :=
    rawEq_trans (raw_apply_strain _) (raw_apply_recovery m)
  obtain ⟨e1, e2, e3, e4, e5, e6, e7, e8, e9, e10, e11⟩ := hr
  rw [e3, sleep_perf_value_congr (rawEq_trans (raw_apply_strain _) (raw_apply_recovery m))]
  have hp : (apply_strain (apply_recovery m)).sleep_performance = m.sleep_performance := by
    show (apply_recovery m).sleep_performance = m.sleep_performance
    simp only [apply_recovery]; split_ifs <;> rfl
  rw [hp]

/-- The seven derived biological-age fields, bundled. -/
def bio_fields (m : DailyMetric) :
    Option ℚ × Option ℚ × Option ℚ × Option ℚ × Option ℚ × Option ℚ × Option ℚ :=
  (m.biological_age, m.bio_age_rhr_impact, m.bio_age_vo2_impact, m.bio_age_sleep_impact,
   m.bio_age_steps_impact, m.bio_age_hrz_impact, m.bio_age_stress_impact)

lemma bio_fields_congr {a b : DailyMetric} (h : RawEq a b) (age : ℚ) :
    bio_fields (calculate_biological_age a age) =
      bio_fields (calculate_biological_age b age) := by
  obtain ⟨i1, i2, i3, i4, i5⟩ := impacts_congr h
  have hl := impacts_list_congr h
  simp only [calculate_biological_age, bio_fields, hl, i1, i2, i3, i4, i5]
  split_ifs <;> rfl

lemma scores_bio_fields (m : DailyMetric) (age : ℚ) :
    bio_fields (calculate_scores m age) = bio_fields (calculate_biological_age m age) :=
  bio_fields_congr
    (rawEq_trans (raw_apply_sleep_performance _)
      (rawEq_trans (raw_apply_strain _) (raw_apply_recovery m))) age

/-! ### Arithmetic helper lemmas -/

lemma round1_sub_abs (q : ℚ) : |round1 q - q| ≤ 1/20 := by
  have h := abs_sub_round (10 * q)
  rw [abs_sub_comm] at h
  have he : round1 q - q = ((round (10 * q) : ℚ) - 10 * q) / 10 := by
    unfold round1; ring
  rw [he, abs_div]
  rw [show |(10 : ℚ)| = 10 by norm_num]
  linarith

lemma round1_mono {a b : ℚ} (h : a ≤ b) : round1 a ≤ round1 b := by
  unfold round1
  have hi : round (10 * a) ≤ round (10 * b) := by
    rw [round_eq, round_eq]
    exact Int.floor_mono (by linarith)
  have h10 : ((round (10 * a) : ℤ) : ℚ) ≤ ((round (10 * b) : ℤ) : ℚ) := by
    exact_mod_cast hi
  linarith

lemma round1_nonneg {q : ℚ} (h : 0 ≤ q) : 0 ≤ round1 q := by
  unfold round1
  have hi : (0 : ℤ) ≤ round (10 * q) := by
    rw [round_eq]
    exact Int.le_floor.mpr (by push_cast; linarith)
  have h10 : ((0 : ℤ) : ℚ) ≤ ((round (10 * q) : ℤ) : ℚ) := by
    exact_mod_cast hi
  push_cast at h10
  linarith

lemma int_trunc_bounds {q : ℚ} (h0 : 0 ≤ q) (h100 : q ≤ 100) :
    0 ≤ int_trunc q ∧ int_trunc q ≤ 100 := by
  unfold int_trunc
  rw [if_pos h0]
  constructor
  · exact Int.le_floor.mpr (by exact_mod_cast h0)
  · have := Int.floor_mono h100
    simpa using this

lemma weighted_avg_bounds (cs : List (ℚ × ℚ)) (hv : ∀ p ∈ cs, 0 ≤ p.1 ∧ p.1 ≤ 100)
    (hw : ∀ p ∈ cs, 0 < p.2) (hne : cs ≠ []) :
    0 ≤ (cs.map (fun c => c.1 * c.2)).sum / (cs.map Prod.snd).sum ∧
      (cs.map (fun c => c.1 * c.2)).sum / (cs.map Prod.snd).sum ≤ 100 := by
  have hWpos : 0 < (cs.map Prod.snd).sum := by
    apply List.sum_pos
    · intro x hx
      obtain ⟨p, hp, rfl⟩ := List.mem_map.mp hx
      exact hw p hp
    · simpa using hne
  have hS0 : 0 ≤ (cs.map (fun c => c.1 * c.2)).sum := by
    apply List.sum_nonneg
    intro x hx
    obtain ⟨p, hp, rfl⟩ := List.mem_map.mp hx
    exact mul_nonneg (hv p hp).1 (le_of_lt (hw p hp))
  have hS100 : (cs.map (fun c => c.1 * c.2)).sum ≤ 100 * (cs.map Prod.snd).sum := by
    rw [← List.sum_map_mul_left]
    exact List.sum_le_sum fun p hp =>
      mul_le_mul_of_nonneg_right (hv p hp).2 (le_of_lt (hw p hp))
  exact ⟨div_nonneg hS0 (le_of_lt hWpos), (div_le_iff₀ hWpos).mpr (by linarith)⟩

lemma filterMap_id_map_opt (g : ℚ → ℚ) (l : List (Option ℚ)) :
    (l.map (Option.map g)).filterMap id = (l.filterMap id).map g := by
  induction l with
  | nil => rfl
  | cons o t ih => cases o <;> simp [ih]

lemma sum_round1_scale (L : List ℚ) (s : ℚ) :
    |(L.map (fun x => round1 (x * s))).sum - L.sum * s| ≤ (L.length : ℚ) * (1/20) := by
  induction L with
  | nil => simp
  | cons a t ih =>
    simp only [List.map_cons, List.sum_cons, List.length_cons]
    have h1 := round1_sub_abs (a * s)
    have h2 : |(round1 (a * s) + (t.map (fun x => round1 (x * s))).sum) - (a + t.sum) * s| ≤
        |round1 (a * s) - a * s| + |(t.map (fun x => round1 (x * s))).sum - t.sum * s| := by
      have he : (round1 (a * s) + (t.map (fun x => round1 (x * s))).sum) - (a + t.sum) * s =
          (round1 (a * s) - a * s) + ((t.map (fun x => round1 (x * s))).sum - t.sum * s) := by
        ring
      rw [he]
      exact abs_add _ _
    push_cast
    calc |(round1 (a * s) + (t.map (fun x => round1 (x * s))).sum) - (a + t.sum) * s| ≤
        |round1 (a * s) - a * s| + |(t.map (fun x => round1 (x * s))).sum - t.sum * s| := h2
      _ ≤ 1/20 + (t.length : ℚ) * (1/20) := add_le_add h1 ih
      _ = ((t.length : ℚ) + 1) * (1/20) := by ring

/-- The sum of the non-null per-factor year-impact entries stored on a record. -/
def per_factor_sum (m : DailyMetric) : ℚ :=
  ([m.bio_age_rhr_impact, m.bio_age_vo2_impact, m.bio_age_sleep_impact,
    m.bio_age_steps_impact, m.bio_age_hrz_impact, m.bio_age_stress_impact].filterMap id).sum

lemma bio_age_some (m : DailyMetric) (age : ℚ) (h : ¬ (impacts_list m).length < 2) :
    (calculate_biological_age m age).biological_age =
      some (round1 (age + (impacts_list m).sum / ((impacts_list m).length : ℚ) * 8)) := by
  simp only [calculate_biological_age]
  rw [if_neg h]

lemma bio_age_none (m : DailyMetric) (age : ℚ) (h : (impacts_list m).length < 2) :
    (calculate_biological_age m age).biological_age = none := by
  simp only [calculate_biological_age]
  rw [if_pos h]

/-! ### Claim theorems -/

/-- C1: for every DailyRecord with at least 2 computable biological-age
factors and every chronological age, `biologicalAge` is present and the sum
of the non-null per-factor year impacts differs from
`biologicalAge − chronologicalAge` by at most `0.1 × numFactors`. -/
theorem C1_attribution_sum_tolerance (m : DailyMetric) (age : ℚ)
    (h : 2 ≤ num_factors m) :
    ∃ b, (calculate_biological_age m age).biological_age = some b ∧
      |per_factor_sum (calculate_biological_age m age) - (b - age)| ≤
        (num_factors m : ℚ) * (1/10) := by
  have hn : ¬ (impacts_list m).length < 2 := by
    unfold num_factors at h; omega
  refine ⟨_, bio_age_some m age hn, ?_⟩
  set L := impacts_list m with hL
  set n : ℚ := (L.length : ℚ) with hn'
  have hn2 : (2 : ℚ) ≤ n := by
    rw [hn']
    exact_mod_cast (by unfold num_factors at h; exact h)
  -- per-factor fields of the output
  have hfields : per_factor_sum (calculate_biological_age m age) =
      ((([rhr_impact m, vo2_impact m, sleep_impact m, steps_impact m,
        hrz_impact m].map (Option.map (fun i => round1 (i * (8 / n))))).filterMap id).sum) := by
    simp only [calculate_biological_age]
    rw [if_neg hn]
    simp [per_factor_sum, List.filterMap_cons]
  rw [hfields, filterMap_id_map_opt]
  have hsum := sum_round1_scale L (8 / n)
  have hround := round1_sub_abs (age + L.sum / n * 8)
  have hD : L.sum * (8 / n) = L.sum / n * 8 := by ring
  have hlen : ((L.map (fun i => round1 (i * (8 / n)))).length : ℚ) = n := by
    rw [List.length_map]
  have htri : |(L.map (fun x => round1 (x * (8 / n)))).sum -
      (round1 (age + L.sum / n * 8) - age)| ≤
      |(L.map (fun x => round1 (x * (8 / n)))).sum - L.sum * (8 / n)| +
      |round1 (age + L.sum / n * 8) - (age + L.sum / n * 8)| := by
    have he : (L.map (fun x => round1 (x * (8 / n)))).sum -
        (round1 (age + L.sum / n * 8) - age) =
        ((L.map (fun x => round1 (x * (8 / n)))).sum - L.sum * (8 / n)) -
        (round1 (age + L.sum / n * 8) - (age + L.sum / n * 8)) := by
      rw [hD]; ring
    rw [he]
    exact abs_sub _ _
  have hcast : ((L.length : ℕ) : ℚ) = n := rfl
  have hnum : (num_factors m : ℚ) = n := by
    unfold num_factors; rw [← hL]
  rw [hnum]
  calc |(L.map (fun x => round1 (x * (8 / n)))).sum - (round1 (age + L.sum / n * 8) - age)|
      ≤ |(L.map (fun x => round1 (x * (8 / n)))).sum - L.sum * (8 / n)| +
        |round1 (age + L.sum / n * 8) - (age + L.sum / n * 8)| := htri
    _ ≤ n * (1/20) + 1/20 := by
        refine add_le_add ?_ (round1_sub_abs _)
        rw [← hcast]
        exact hsum
    _ ≤ n * (1/10) := by linarith

/-- C2: with fewer than 2 computable factors, the biological age and every
per-factor year-impact field are explicitly null. -/
theorem C2_insufficient_factors_null (m : DailyMetric) (age : ℚ)
    (h : num_factors m < 2) :
    (calculate_biological_age m age).biological_age = none ∧
    (calculate_biological_age m age).bio_age_rhr_impact = none ∧
    (calculate_biological_age m age).bio_age_vo2_impact = none ∧
    (calculate_biological_age m age).bio_age_sleep_impact = none ∧
    (calculate_biological_age m age).bio_age_steps_impact = none ∧
    (calculate_biological_age m age).bio_age_hrz_impact = none ∧
    (calculate_biological_age m age).bio_age_stress_impact = none := by
  have h' : (impacts_list m).length < 2 := h
  simp only [calculate_biological_age]
  rw [if_pos h']
  exact ⟨rfl, rfl, rfl, rfl, rfl, rfl, rfl⟩

/-- C1 witness: a concrete day with RHR 70 and 2000 steps has 3 computable
factors and satisfies the attribution-sum tolerance. -/
theorem C1_attribution_sum_tolerance_witness :
    2 ≤ num_factors { resting_hr := some 70, steps := some 2000 } ∧
    ∃ b, (calculate_biological_age { resting_hr := some 70, steps := some 2000 }
        42).biological_age = some b ∧
      |per_factor_sum (calculate_biological_age
          { resting_hr := some 70, steps := some 2000 } 42) - (b - 42)| ≤
        (num_factors { resting_hr := some 70, steps := some 2000 } : ℚ) * (1/10) :=
  ⟨by simp [num_factors, impacts_list, rhr_impact, vo2_impact, sleep_impact, steps_impact,
      hrz_impact, truthy, orZero, List.filterMap_cons],
   C1_attribution_sum_tolerance { resting_hr := some 70, steps := some 2000 } 42
     (by simp [num_factors, impacts_list, rhr_impact, vo2_impact, sleep_impact, steps_impact,
       hrz_impact, truthy, orZero, List.filterMap_cons])⟩

/-- C2 witness: a day with no telemetry at all has 0 computable factors and
every biological-age field null. -/
theorem C2_insufficient_factors_null_witness :
    num_factors {} < 2 ∧ (calculate_biological_age {} 42).biological_age = none :=
  ⟨by simp [num_factors, impacts_list, rhr_impact, vo2_impact, sleep_impact, steps_impact,
      hrz_impact, truthy, orZero, List.filterMap_cons],
   (C2_insufficient_factors_null {} 42
     (by simp [num_factors, impacts_list, rhr_impact, vo2_impact, sleep_impact, steps_impact,
       hrz_impact, truthy, orZero, List.filterMap_cons])).1⟩

/-- C5: with non-negative intensity-minute telemetry, the intensity-load
factor is computable exactly when the day has any step or intensity data:
when the intensity score `moderate + 2 × vigorous` is positive, or — even
when that score is zero — when positive step data exists. Its computability
is what feeds the ≥2-factor minimum, since `impacts_list` (whose length is
`num_factors`) includes `hrz_impact`. -/
theorem C5_intensity_factor_computable (m : DailyMetric)
    (hm : 0 ≤ orZero m.moderate_intensity_minutes)
    (hv : 0 ≤ orZero m.vigorous_intensity_minutes) :
    (hrz_impact m).isSome = true ↔
      (0 < intensity_score m ∨
        (truthy m.steps = true ∧ 0 < orZero m.steps)) := by
  simp only [hrz_impact, intensity_score]
  constructor
  · intro h
    split at h
    · rename_i hc
      simp only [Bool.or_eq_true, Bool.and_eq_true, decide_eq_true_eq] at hc
      rcases hc with hc | ⟨⟨⟨hm0, hv0⟩, hst⟩, hsp⟩
      · exact Or.inl hc
      · exact Or.inr ⟨hst, hsp⟩
    · simp at h
  · intro h
    have hcond : (decide (0 < orZero m.moderate_intensity_minutes +
        orZero m.vigorous_intensity_minutes * 2) ||
        (decide (orZero m.moderate_intensity_minutes = 0) &&
          decide (orZero m.vigorous_intensity_minutes = 0) &&
          truthy m.steps && decide (0 < orZero m.steps))) = true := by
      simp only [Bool.or_eq_true, Bool.and_eq_true, decide_eq_true_eq]
      rcases h with h | ⟨hst, hsp⟩
      · exact Or.inl h
      · by_cases h0 : 0 < orZero m.moderate_intensity_minutes +
            orZero m.vigorous_intensity_minutes * 2
        · exact Or.inl h0
        · exact Or.inr ⟨⟨⟨by linarith, by linarith⟩, hst⟩, hsp⟩
    rw [if_pos hcond]
    rfl

/-- C5 witness: a day with zero recorded intensity minutes but 5000 steps
still has a computable intensity-load factor. -/
theorem C5_intensity_factor_computable_witness :
    0 ≤ orZero (DailyMetric.moderate_intensity_minutes
      { moderate_intensity_minutes := some 0, steps := some 5000 }) ∧
    0 ≤ orZero (DailyMetric.vigorous_intensity_minutes
      { moderate_intensity_minutes := some 0, steps := some 5000 }) ∧
    (hrz_impact { moderate_intensity_minutes := some 0, steps := some 5000 }).isSome = true :=
  ⟨by simp [orZero], by simp [orZero],
   (C5_intensity_factor_computable
       { moderate_intensity_minutes := some 0, steps := some 5000 }
       (by simp [orZero]) (by simp [orZero])).mpr
     (Or.inr ⟨by simp [truthy], by simp [orZero]⟩)⟩

lemma bio_mono_core (mA mB : DailyMetric) (age : ℚ) (a b : ℚ)
    (LA LB : List ℚ) (hA : impacts_list mA = LA) (hB : impacts_list mB = LB)
    (hlen : LA.length = LB.length) (hsum : LA.sum ≤ LB.sum)
    (ha : (calculate_biological_age mA age).biological_age = some a)
    (hb : (calculate_biological_age mB age).biological_age = some b) : a ≤ b := by
  by_cases h2 : LA.length < 2
  · rw [bio_age_none mA age (by rw [hA]; exact h2)] at ha
    cases ha
  · have h2B : ¬ LB.length < 2 := by omega
    rw [bio_age_some mA age (by rw [hA]; exact h2)] at ha
    rw [bio_age_some mB age (by rw [hB]; exact h2B)] at hb
    rw [hA] at ha
    rw [hB] at hb
    injection ha with ha'
    injection hb with hb'
    subst ha'
    subst hb'
    rw [← hlen]
    apply round1_mono
    have hn' : (0 : ℚ) < (LA.length : ℚ) := by
      have h2' : 2 ≤ LA.length := by omega
      have : (2 : ℚ) ≤ (LA.length : ℚ) := by exact_mod_cast h2'
      linarith
    have key : 0 ≤ (LB.sum - LA.sum) / (LA.length : ℚ) * 8 :=
      mul_nonneg (div_nonneg (by linarith) hn'.le) (by norm_num)
    have hid : (LB.sum - LA.sum) / (LA.length : ℚ) * 8 =
        LB.sum / (LA.length : ℚ) * 8 - LA.sum / (LA.length : ℚ) * 8 := by ring
    linarith

/-- C7: with all other raw fields fixed, lowering resting heart rate from
70 to 50 never increases the biological age, and raising steps from 2000 to
12000 never increases the biological age. -/
theorem C7_monotonicity (m : DailyMetric) (age : ℚ) :
    (∀ a b,
      (calculate_biological_age { m with resting_hr := some 50 } age).biological_age = some a →
      (calculate_biological_age { m with resting_hr := some 70 } age).biological_age = some b →
      a ≤ b) ∧
    (∀ a b,
      (calculate_biological_age { m with steps := some 12000 } age).biological_age = some a →
      (calculate_biological_age { m with steps := some 2000 } age).biological_age = some b →
      a ≤ b) := by
  constructor
  · intro a b h50 h70
    have e50 : rhr_impact { m with resting_hr := some 50 } = some (-(1/2)) := by
      norm_num [rhr_impact, truthy, orZero]
    have e70 : rhr_impact { m with resting_hr := some 70 } = some (1/2) := by
      norm_num [rhr_impact, truthy, orZero]
    have hL50 : impacts_list { m with resting_hr := some 50 } =
        -(1/2) :: ([vo2_impact m, sleep_impact m, steps_impact m,
          hrz_impact m].filterMap id) := by
      have h2 : vo2_impact { m with resting_hr := some 50 } = vo2_impact m := rfl
      have h3 : sleep_impact { m with resting_hr := some 50 } = sleep_impact m := rfl
      have h4 : steps_impact { m with resting_hr := some 50 } = steps_impact m := rfl
      have h5 : hrz_impact { m with resting_hr := some 50 } = hrz_impact m := rfl
      simp only [impacts_list, e50, h2, h3, h4, h5, List.filterMap_cons, id]
    have hL70 : impacts_list { m with resting_hr := some 70 } =
        (1/2) :: ([vo2_impact m, sleep_impact m, steps_impact m,
          hrz_impact m].filterMap id) := by
      have h2 : vo2_impact { m with resting_hr := some 70 } = vo2_impact m := rfl
      have h3 : sleep_impact { m with resting_hr := some 70 } = sleep_impact m := rfl
      have h4 : steps_impact { m with resting_hr := some 70 } = steps_impact m := rfl
      have h5 : hrz_impact { m with resting_hr := some 70 } = hrz_impact m := rfl
      simp only [impacts_list, e70, h2, h3, h4, h5, List.filterMap_cons, id]
    refine bio_mono_core _ _ age a b _ _ hL50 hL70 ?_ ?_ h50 h70
    · simp
    · simp
  · intro a b h12 h2k
    have e2k : steps_impact { m with steps := some 2000 } = some (3/5) := by
      norm_num [steps_impact, truthy, orZero]
    have e12 : steps_impact { m with steps := some 12000 } = some (-(4/5)) := by
      norm_num [steps_impact, truthy, orZero]
    have ehrz : hrz_impact { m with steps := some 12000 } =
        hrz_impact { m with steps := some 2000 } := by
      norm_num [hrz_impact, truthy, orZero]
    have hsplit : ∀ s : ℚ, impacts_list { m with steps := some s } =
        ([rhr_impact m, vo2_impact m, sleep_impact m].filterMap id) ++
          ([steps_impact { m with steps := some s },
            hrz_impact { m with steps := some s }].filterMap id) := by
      intro s
      have h1 : rhr_impact { m with steps := some s } = rhr_impact m := rfl
      have h2 : vo2_impact { m with steps := some s } = vo2_impact m := rfl
      have h3 : sleep_impact { m with steps := some s } = sleep_impact m := rfl
      rw [show impacts_list { m with steps := some s } =
        ([rhr_impact { m with steps := some s }, vo2_impact { m with steps := some s },
          sleep_impact { m with steps := some s }] ++
          [steps_impact { m with steps := some s },
            hrz_impact { m with steps := some s }]).filterMap id from rfl]
      rw [List.filterMap_append, h1, h2, h3]
    have hL12 : impacts_list { m with steps := some 12000 } =
        ([rhr_impact m, vo2_impact m, sleep_impact m].filterMap id) ++
          (-(4/5) :: ([hrz_impact { m with steps := some 2000 }].filterMap id)) := by
      rw [hsplit 12000, e12, ehrz]
      simp [List.filterMap_cons]
    have hL2k : impacts_list { m with steps := some 2000 } =
        ([rhr_impact m, vo2_impact m, sleep_impact m].filterMap id) ++
          ((3/5) :: ([hrz_impact { m with steps := some 2000 }].filterMap id)) := by
      rw [hsplit 2000, e2k]
      simp [List.filterMap_cons]
    refine bio_mono_core _ _ age a b _ _ hL12 hL2k ?_ ?_ h12 h2k
    · simp
    · simp only [List.sum_append, List.sum_cons]
      have : (-(4/5) : ℚ) ≤ 3/5 := by norm_num
      linarith

/-- C7 witness: on a day whose only other datum is VO2 max 50, the
biological age at RHR 50 (37.5 years) is below the one at RHR 70
(41.5 years). -/
theorem C7_monotonicity_witness : (75/2 : ℚ) ≤ 83/2 :=
  (C7_monotonicity { vo2_max := some 50 } 42).1 (75/2) (83/2)
    (by norm_num [calculate_biological_age, impacts_list, rhr_impact, vo2_impact,
      sleep_impact, steps_impact, hrz_impact, truthy, orZero, List.filterMap_cons,
      round1, round_eq])
    (by norm_num [calculate_biological_age, impacts_list, rhr_impact, vo2_impact,
      sleep_impact, steps_impact, hrz_impact, truthy, orZero, List.filterMap_cons,
      round1, round_eq])

/-- The recovery score exactly as claim C3 words it: weight-renormalized
average of body-battery peak capped at 100 (weight 0.4), the RHR-derived
score `clamp(100 − (rhr − 55) × 3, 0, 100)` (weight 0.3), and the
sleep-duration score `min(100, hours/8 × 100)` (weight 0.3), truncated to
an integer, absent when no component has data. Claim-side definition, for
comparison against the code. -/
def claimed_recovery_score (m : DailyMetric) : Option ℤ :=
  let comps : List (Option ℚ × ℚ) :=
    [(if truthy m.body_battery_high then some (min 100 (orZero m.body_battery_high))
        else none, 2/5),
     (if truthy m.resting_hr then
        some (max 0 (min 100 (100 - (orZero m.resting_hr - 55) * 3))) else none, 3/10),
     (if truthy m.sleep_seconds then
        some (min 100 (orZero m.sleep_seconds / 3600 / 8 * 100)) else none, 3/10)]
  let present := comps.filterMap (fun p => p.1.map (fun v => (v, p.2)))
  if present = [] then none
  else some (int_trunc ((present.map (fun c => c.1 * c.2)).sum / (present.map Prod.snd).sum))

/-- C3 counterexample: on a day whose only datum is a resting heart rate of
70 bpm, the code computes recovery 70 (baseline 60), while the claimed
formula (baseline 55) gives 55. -/
theorem C3_counterexample :
    (calculate_scores { resting_hr := some 70 } 42).recovery_score = some 70 ∧
    claimed_recovery_score { resting_hr := some 70 } = some 55 := by
  constructor
  · rw [scores_recovery]
    norm_num [recovery_components, recovery_value, truthy, orZero, int_trunc,
      List.filterMap_cons]
  · norm_num [claimed_recovery_score, truthy, orZero, int_trunc, List.filterMap_cons]

/-- The recovery components in the claim's presentation: an optional value
with its fixed weight, for each of the three components, using the formulas
the code actually implements (RHR baseline 60; piecewise sleep-duration
score averaged with a deep+REM quality score when both phases are known). -/
def recovery_component_values (m : DailyMetric) : List (Option ℚ × ℚ) :=
  [(if truthy m.body_battery_high then some (min 100 (orZero m.body_battery_high))
      else none, 2/5),
   (if truthy m.resting_hr then
      some (max 0 (min 100 (100 - (orZero m.resting_hr - 60) * 3))) else none, 3/10),
   (if truthy m.sleep_seconds then some (sleep_recovery_score m) else none, 3/10)]

/-- The amended recovery score: `Σ(value × weight) / Σ(weight)` over the
components that have data, truncated to an integer; `none` when no
component has data. -/
def amended_recovery_score (m : DailyMetric) : Option ℤ :=
  let present := (recovery_component_values m).filterMap
    (fun p => p.1.map (fun v => (v, p.2)))
  if present = [] then none
  else some (int_trunc ((present.map (fun c => c.1 * c.2)).sum / (present.map Prod.snd).sum))

lemma present_components_eq (m : DailyMetric) :
    (recovery_component_values m).filterMap (fun p => p.1.map (fun v => (v, p.2))) =
      recovery_components m := by
  unfold recovery_component_values recovery_components
  cases ht1 : truthy m.body_battery_high <;>
    cases ht2 : truthy m.resting_hr <;>
      cases ht3 : truthy m.sleep_seconds <;>
        simp [ht1, ht2, ht3, List.filterMap_cons]

/-- C3 amended: starting from a record whose recovery field is unset, the
engine's recovery score equals the weight-renormalized average
`Σ(value×weight)/Σ(weight)` over the components with data — body-battery
peak capped at 100 (weight 0.4), the RHR score `clamp(100 − (rhr−60)×3, 0, 100)`
(weight 0.3), and the code's piecewise sleep score (duration bands
100/80/60/linear, averaged with a deep+REM quality score when both phases
are present; weight 0.3) — truncated to an integer, and absent when no
component has data. -/
theorem C3_amended_renormalized_recovery (m : DailyMetric) (age : ℚ)
    (h0 : m.recovery_score = none) :
    (calculate_scores m age).recovery_score = amended_recovery_score m := by
  rw [scores_recovery]
  simp only [amended_recovery_score, recovery_value]
  rw [present_components_eq]
  split_ifs with h
  · rw [h0]
  · rfl

/-- C3 amended witness: the RHR-only day evaluates to recovery 70 on both
sides. -/
theorem C3_amended_renormalized_recovery_witness :
    (calculate_scores { resting_hr := some 70 } 42).recovery_score =
      amended_recovery_score { resting_hr := some 70 } :=
  C3_amended_renormalized_recovery { resting_hr := some 70 } 42 rfl

/-- The per-activity strain exactly as claim C8 words it, with the final
value clamped to `[0, 21]`. Claim-side definition, for comparison against
the code. -/
def claimed_activity_strain (a : ActivityData) : ℚ :=
  max 0 (min 21 (round1 (2 * orZero a.aerobicTrainingEffect +
    (3/2) * orZero a.anaerobicTrainingEffect +
    (3/10) * (orZero a.hrTimeInZone_4 / 60) + (1/2) * (orZero a.hrTimeInZone_5 / 60) +
    (1/2) * (orZero a.duration / 3600))))

/-- C8 counterexample: the code never clamps below — an activity whose only
field is `aerobicTrainingEffect = -20` yields strain `-40`, while the
claimed `[0,21]`-clamped formula yields `0`. -/
theorem C8_counterexample :
    calculate_activity_strain ⟨some (-20), none, none, none, none⟩ = -40 ∧
    claimed_activity_strain ⟨some (-20), none, none, none, none⟩ = 0 := by
  constructor
  · norm_num [calculate_activity_strain, orZero, round1, round_eq]
  · norm_num [claimed_activity_strain, orZero, round1, round_eq]

/-- C8 amended: the per-activity strain equals
`2×aerobic + 1.5×anaerobic + 0.3×zone4Minutes + 0.5×zone5Minutes + 0.5×(duration/3600)`
with missing inputs contributing 0, rounded to 1 decimal and capped above
at 21 (there is no clamp at 0, but the result is non-negative whenever all
inputs are non-negative); in particular aerobic 3.0, anaerobic 1.0,
duration 3600 s and no zone data yield exactly 8.0. -/
theorem C8_amended_activity_strain (a : ActivityData) :
    calculate_activity_strain a =
      min 21 (round1 (2 * orZero a.aerobicTrainingEffect +
        (3/2) * orZero a.anaerobicTrainingEffect +
        (3/10) * (orZero a.hrTimeInZone_4 / 60) +
        (1/2) * (orZero a.hrTimeInZone_5 / 60) +
        (1/2) * (orZero a.duration / 3600))) ∧
    calculate_activity_strain a ≤ 21 ∧
    (0 ≤ orZero a.aerobicTrainingEffect → 0 ≤ orZero a.anaerobicTrainingEffect →
      0 ≤ orZero a.hrTimeInZone_4 → 0 ≤ orZero a.hrTimeInZone_5 →
      0 ≤ orZero a.duration → 0 ≤ calculate_activity_strain a) ∧
    calculate_activity_strain ⟨some 3, some 1, none, none, some 3600⟩ = 8 := by
  refine ⟨?_, ?_, ?_, ?_⟩
  · simp only [calculate_activity_strain]
    exact congrArg (fun x => min 21 (round1 x)) (by ring)
  · simp only [calculate_activity_strain]
    exact min_le_left _ _
  · intro h1 h2 h3 h4 h5
    simp only [calculate_activity_strain]
    have hsum : 0 ≤ orZero a.aerobicTrainingEffect * 2 +
        orZero a.anaerobicTrainingEffect * (3/2) +
        ((orZero a.hrTimeInZone_4 / 60) * (3/10) + (orZero a.hrTimeInZone_5 / 60) * (1/2)) +
        (orZero a.duration / 3600) * (1/2) := by
      have k1 : 0 ≤ orZero a.aerobicTrainingEffect * 2 := by linarith
      have k2 : 0 ≤ orZero a.anaerobicTrainingEffect * (3/2) := by linarith
      have k3 : 0 ≤ (orZero a.hrTimeInZone_4 / 60) * (3/10) := by positivity
      have k4 : 0 ≤ (orZero a.hrTimeInZone_5 / 60) * (1/2) := by positivity
      have k5 : 0 ≤ (orZero a.duration / 3600) * (1/2) := by positivity
      linarith
    exact le_min (by norm_num) (round1_nonneg hsum)
  · norm_num [calculate_activity_strain, orZero, round1, round_eq]

/-- C8 amended witness: at aerobic 3.0, anaerobic 1.0, duration 3600 s the
strain is non-negative and equals 8.0. -/
theorem C8_amended_activity_strain_witness :
    0 ≤ calculate_activity_strain ⟨some 3, some 1, none, none, some 3600⟩ ∧
    calculate_activity_strain ⟨some 3, some 1, none, none, some 3600⟩ = 8 :=
  ⟨(C8_amended_activity_strain ⟨some 3, some 1, none, none, some 3600⟩).2.2.1
      (by simp [orZero]) (by simp [orZero]) (by simp [orZero]) (by simp [orZero])
      (by simp [orZero]),
   (C8_amended_activity_strain ⟨some 3, some 1, none, none, some 3600⟩).2.2.2⟩

/-- Well-formed, non-negative telemetry: every raw field, read through
Python's `or 0` coercion, is non-negative. -/
def ValidRaw (m : DailyMetric) : Prop :=
  0 ≤ orZero m.resting_hr ∧ 0 ≤ orZero m.vo2_max ∧ 0 ≤ orZero m.sleep_seconds ∧
  0 ≤ orZero m.deep_sleep_seconds ∧ 0 ≤ orZero m.rem_sleep_seconds ∧
  0 ≤ orZero m.steps ∧ 0 ≤ orZero m.moderate_intensity_minutes ∧
  0 ≤ orZero m.vigorous_intensity_minutes ∧ 0 ≤ orZero m.body_battery_high ∧
  0 ≤ orZero m.active_calories ∧ 0 ≤ orZero m.stress_avg

lemma truthy_pos {o : Option ℚ} (ht : truthy o = true) (h0 : 0 ≤ orZero o) :
    0 < orZero o := by
  cases o with
  | none => simp [truthy] at ht
  | some v =>
    simp only [truthy, bne_iff_ne, ne_eq, decide_eq_true_eq] at ht
    simp only [orZero, Option.getD_some] at h0 ⊢
    exact lt_of_le_of_ne h0 (Ne.symm ht)

lemma sleep_duration_score_bounds (q : ℚ) (h : 0 ≤ q) :
    0 ≤ sleep_duration_score q ∧ sleep_duration_score q ≤ 100 := by
  unfold sleep_duration_score
  split_ifs with h1 h2 h3
  · norm_num
  · norm_num
  · norm_num
  · constructor
    · exact le_max_left 0 _
    · apply max_le (by norm_num)
      have he : q / 5 * 60 = 12 * q := by ring
      rw [he]
      push_neg at h3
      linarith

lemma sleep_recovery_score_bounds (m : DailyMetric) (hs : truthy m.sleep_seconds = true)
    (h0 : 0 ≤ orZero m.sleep_seconds) (hd : 0 ≤ orZero m.deep_sleep_seconds)
    (hr : 0 ≤ orZero m.rem_sleep_seconds) :
    0 ≤ sleep_recovery_score m ∧ sleep_recovery_score m ≤ 100 := by
  have hh : 0 ≤ orZero m.sleep_seconds / 3600 := div_nonneg h0 (by norm_num)
  obtain ⟨d1, d2⟩ := sleep_duration_score_bounds _ hh
  simp only [sleep_recovery_score]
  split_ifs with hq
  · have hf : 0 ≤ (orZero m.deep_sleep_seconds + orZero m.rem_sleep_seconds) /
        orZero m.sleep_seconds := div_nonneg (by linarith) h0
    have q1 : 0 ≤ min 100 ((orZero m.deep_sleep_seconds + orZero m.rem_sleep_seconds) /
        orZero m.sleep_seconds / (2/5) * 100) := by
      refine le_min (by norm_num) ?_
      positivity
    have q2 : min 100 ((orZero m.deep_sleep_seconds + orZero m.rem_sleep_seconds) /
        orZero m.sleep_seconds / (2/5) * 100) ≤ 100 := min_le_left _ _
    constructor <;> linarith
  · exact ⟨d1, d2⟩

lemma recovery_components_bounds (m : DailyMetric) (hv : ValidRaw m) :
    ∀ p ∈ recovery_components m, (0 ≤ p.1 ∧ p.1 ≤ 100) ∧ 0 < p.2 := by
  obtain ⟨v1, v2, v3, v4, v5, v6, v7, v8, v9, v10, v11⟩ := hv
  intro p hp
  simp only [recovery_components, List.mem_append] at hp
  rcases hp with (hp | hp) | hp
  · by_cases hb : truthy m.body_battery_high = true
    · rw [if_pos hb] at hp
      simp only [List.mem_singleton] at hp
      subst hp
      exact ⟨⟨le_min (by norm_num) v9, min_le_left _ _⟩, by norm_num⟩
    · rw [if_neg hb] at hp
      simp at hp
  · by_cases hb : truthy m.resting_hr = true
    · rw [if_pos hb] at hp
      simp only [List.mem_singleton] at hp
      subst hp
      refine ⟨⟨le_max_left 0 _, max_le (by norm_num) (min_le_left _ _)⟩, by norm_num⟩
    · rw [if_neg hb] at hp
      simp at hp
  · by_cases hb : truthy m.sleep_seconds = true
    · rw [if_pos hb] at hp
      simp only [List.mem_singleton] at hp
      subst hp
      obtain ⟨s1, s2⟩ := sleep_recovery_score_bounds m hb v3 v4 v5
      exact ⟨⟨s1, s2⟩, by norm_num⟩
    · rw [if_neg hb] at hp
      simp at hp

lemma strain_value_nonneg (m : DailyMetric) (hv : ValidRaw m) : 0 ≤ strain_value m := by
  obtain ⟨v1, v2, v3, v4, v5, v6, v7, v8, v9, v10, v11⟩ := hv
  simp only [strain_value]
  split_ifs with h1 h2 h3
  · simp only [Bool.and_eq_true, decide_eq_true_eq] at h1
    have hac : 0 ≤ orZero m.active_calories / 100 := by linarith
    have hst : 0 ≤ (orZero m.stress_avg - 50) / 50 := by
      have := h1.2
      linarith
    linarith
  · simp only [Bool.and_eq_true, decide_eq_true_eq] at h1
    have hst : 0 ≤ (orZero m.stress_avg - 50) / 50 := by
      have := h1.2
      linarith
    linarith
  · have hac : 0 ≤ orZero m.active_calories / 100 := by linarith
    linarith
  · linarith

lemma sleep_perf_value_bounds (m : DailyMetric)
    (h0 : 0 ≤ orZero m.sleep_seconds) (hd : 0 ≤ orZero m.deep_sleep_seconds)
    (hr : 0 ≤ orZero m.rem_sleep_seconds) :
    0 ≤ sleep_perf_value m ∧ sleep_perf_value m ≤ 100 := by
  have hh : 0 ≤ orZero m.sleep_seconds / 3600 := div_nonneg h0 (by norm_num)
  simp only [sleep_perf_value]
  have hd1 : 0 ≤ min 100 (orZero m.sleep_seconds / 3600 / 8 * 100) := by
    refine le_min (by norm_num) ?_
    positivity
  have hd2 : min 100 (orZero m.sleep_seconds / 3600 / 8 * 100) ≤ 100 := min_le_left _ _
  split_ifs with hq
  · have hdp : 0 ≤ orZero m.deep_sleep_seconds / orZero m.sleep_seconds :=
      div_nonneg hd h0
    have hrp : 0 ≤ orZero m.rem_sleep_seconds / orZero m.sleep_seconds :=
      div_nonneg hr h0
    have q1 : 0 ≤ min 100 (orZero m.deep_sleep_seconds / orZero m.sleep_seconds /
        (7/40) * 100) := le_min (by norm_num) (by positivity)
    have q2 : min 100 (orZero m.deep_sleep_seconds / orZero m.sleep_seconds /
        (7/40) * 100) ≤ 100 := min_le_left _ _
    have q3 : 0 ≤ min 100 (orZero m.rem_sleep_seconds / orZero m.sleep_seconds /
        (9/40) * 100) := le_min (by norm_num) (by positivity)
    have q4 : min 100 (orZero m.rem_sleep_seconds / orZero m.sleep_seconds /
        (9/40) * 100) ≤ 100 := min_le_left _ _
    exact int_trunc_bounds (by linarith) (by linarith)
  · exact int_trunc_bounds (by linarith) (by linarith)

/-- C4: on well-formed non-negative telemetry, starting from a record whose
derived score fields are unset, the engine leaves recoveryScore in
`[0,100]` or absent, strainScore present in `[0,21]`, and sleepPerformance
in `[0,100]` or absent. -/
theorem C4_score_ranges (m : DailyMetric) (age : ℚ) (hv : ValidRaw m)
    (h0r : m.recovery_score = none) (h0s : m.sleep_performance = none) :
    (∀ r, (calculate_scores m age).recovery_score = some r → 0 ≤ r ∧ r ≤ 100) ∧
    (∃ s, (calculate_scores m age).strain_score = some s ∧ 0 ≤ s ∧ s ≤ 21) ∧
    (∀ p, (calculate_scores m age).sleep_performance = some p → 0 ≤ p ∧ p ≤ 100) := by
  refine ⟨?_, ?_, ?_⟩
  · intro r hrec
    rw [scores_recovery] at hrec
    by_cases hc : recovery_components m = []
    · rw [if_pos hc, h0r] at hrec
      cases hrec
    · rw [if_neg hc] at hrec
      injection hrec with hrec'
      subst hrec'
      have hb := recovery_components_bounds m hv
      obtain ⟨w1, w2⟩ := weighted_avg_bounds (recovery_components m)
        (fun p hp => (hb p hp).1) (fun p hp => (hb p hp).2) hc
      simp only [recovery_value]
      exact int_trunc_bounds w1 w2
  · refine ⟨_, scores_strain m age, ?_, ?_⟩
    · exact le_min (by norm_num) (round1_nonneg (strain_value_nonneg m hv))
    · exact min_le_left _ _
  · intro p hp
    rw [scores_sleep_perf] at hp
    by_cases hs : truthy m.sleep_seconds = true
    · rw [if_pos hs] at hp
      injection hp with hp'
      subst hp'
      exact sleep_perf_value_bounds m hv.2.2.1 hv.2.2.2.1 hv.2.2.2.2.1
    · rw [if_neg hs, h0s] at hp
      cases hp

/-- C4 witness: a concrete fully-populated valid day has strain present
and in range. -/
theorem C4_score_ranges_witness :
    ∃ s, (calculate_scores
      { resting_hr := some 60, vo2_max := some 45, sleep_seconds := some 28800,
        deep_sleep_seconds := some 7200, rem_sleep_seconds := some 7200,
        steps := some 8000, moderate_intensity_minutes := some 30,
        vigorous_intensity_minutes := some 10, body_battery_high := some 80,
        active_calories := some 500, stress_avg := some 30 } 42).strain_score =
        some s ∧ 0 ≤ s ∧ s ≤ 21 :=
  (C4_score_ranges
    { resting_hr := some 60, vo2_max := some 45, sleep_seconds := some 28800,
      deep_sleep_seconds := some 7200, rem_sleep_seconds := some 7200,
      steps := some 8000, moderate_intensity_minutes := some 30,
      vigorous_intensity_minutes := some 10, body_battery_high := some 80,
      active_calories := some 500, stress_avg := some 30 } 42
    (by norm_num [ValidRaw, orZero]) rfl rfl).2.1

/-- C6 counterexample: a record with no raw telemetry (zero recovery
components) but a previously stored recovery score keeps that stale value
after a rerun — the field is not reset to null. -/
theorem C6_counterexample :
    recovery_components { recovery_score := some 50 } = [] ∧
    (calculate_scores { recovery_score := some 50 } 42).recovery_score = some 50 := by
  constructor
  · rfl
  · rw [scores_recovery]
    rfl

/-- C6 amended: on every rerun the engine overwrites strainScore
unconditionally and explicitly nulls every biological-age field when fewer
than 2 factors are computable; but recoveryScore and sleepPerformance are
overwritten only when their computation has data — with zero recovery
components, or no sleep data, the previously stored value is left in place
(stale), not reset to null. Rerunning the engine on its own output changes
nothing (idempotence). -/
theorem C6_amended_overwrite_semantics (m : DailyMetric) (age : ℚ) :
    (∃ s, (calculate_scores m age).strain_score = some s) ∧
    (num_factors m < 2 →
      bio_fields (calculate_scores m age) = (none, none, none, none, none, none, none)) ∧
    (recovery_components m = [] →
      (calculate_scores m age).recovery_score = m.recovery_score) ∧
    (truthy m.sleep_seconds = false →
      (calculate_scores m age).sleep_performance = m.sleep_performance) ∧
    calculate_scores (calculate_scores m age) age = calculate_scores m age := by
  have hraw : RawEq (calculate_scores m age) m := raw_calculate_scores m age
  refine ⟨⟨_, scores_strain m age⟩, ?_, ?_, ?_, ?_⟩
  · intro h
    rw [scores_bio_fields]
    simp only [calculate_biological_age, bio_fields]
    rw [if_pos (show (impacts_list m).length < 2 from h)]
  · intro h
    rw [scores_recovery, if_pos h]
  · intro h
    rw [scores_sleep_perf, if_neg (by rw [h]; exact Bool.false_ne_true)]
  · -- idempotence
    obtain ⟨e1, e2, e3, e4, e5, e6, e7, e8, e9, e10, e11⟩ := hraw
    obtain ⟨f1, f2, f3, f4, f5, f6, f7, f8, f9, f10, f11⟩ :=
      raw_calculate_scores (calculate_scores m age) age
    have hbio : bio_fields (calculate_scores (calculate_scores m age) age) =
        bio_fields (calculate_scores m age) := by
      rw [scores_bio_fields, bio_fields_congr (raw_calculate_scores m age) age,
        ← scores_bio_fields]
    have hb1 := congrArg (fun t => t.1) hbio
    have hb2 := congrArg (fun t => t.2.1) hbio
    have hb3 := congrArg (fun t => t.2.2.1) hbio
    have hb4 := congrArg (fun t => t.2.2.2.1) hbio
    have hb5 := congrArg (fun t => t.2.2.2.2.1) hbio
    have hb6 := congrArg (fun t => t.2.2.2.2.2.1) hbio
    have hb7 := congrArg (fun t => t.2.2.2.2.2.2) hbio
    simp only [bio_fields] at hb1 hb2 hb3 hb4 hb5 hb6 hb7
    ext : 1
    · exact f1
    · exact f2
    · exact f3
    · exact f4
    · exact f5
    · exact f6
    · exact f7
    · exact f8
    · exact f9
    · exact f10
    · exact f11
    · -- recovery_score
      rw [scores_recovery, recovery_components_congr (raw_calculate_scores m age),
        recovery_value_congr (raw_calculate_scores m age), scores_recovery m age]
      split_ifs with h <;> rfl
    · -- strain_score
      rw [scores_strain, strain_value_congr (raw_calculate_scores m age),
        ← scores_strain m age]
    · -- sleep_performance
      rw [scores_sleep_perf, e3,
        sleep_perf_value_congr (raw_calculate_scores m age), scores_sleep_perf m age]
      split_ifs with h <;> rfl
    · exact hb1
    · exact hb2
    · exact hb3
    · exact hb4
    · exact hb5
    · exact hb6
    · exact hb7

/-- C6 amended witness: rerunning on the stale-recovery record reproduces
the record, and strain is present. -/
theorem C6_amended_overwrite_semantics_witness :
    calculate_scores (calculate_scores { recovery_score := some 50 } 42) 42 =
      calculate_scores { recovery_score := some 50 } 42 ∧
    (calculate_scores { recovery_score := some 50 } 42).recovery_score =
      DailyMetric.recovery_score { recovery_score := some 50 } :=
  ⟨(C6_amended_overwrite_semantics { recovery_score := some 50 } 42).2.2.2.2,
   (C6_amended_overwrite_semantics { recovery_score := some 50 } 42).2.2.1 rfl⟩

lemma pred_day_first_of_month (y mth : ℤ) (h : 1 < mth) :
    pred_day ⟨y, mth, 1⟩ = ⟨y, mth - 1, days_in_month y (mth - 1)⟩ := by
  unfold pred_day
  dsimp only
  rw [if_neg (by norm_num), if_pos h]

lemma pred_day_jan_first (y : ℤ) : pred_day ⟨y, 1, 1⟩ = ⟨y - 1, 12, 31⟩ := by
  unfold pred_day
  dsimp only
  norm_num

lemma norm_month_low_spec (mth yr : ℤ) :
    (norm_month_low mth yr).2 * 12 + (norm_month_low mth yr).1 = yr * 12 + mth ∧
    1 ≤ (norm_month_low mth yr).1 ∧
    (mth ≤ 12 → (norm_month_low mth yr).1 ≤ 12) := by
  induction mth, yr using norm_month_low.induct with
  | case1 mth yr hlt ih =>
    rw [norm_month_low, if_pos hlt]
    have hih := ih.1
    exact ⟨by omega, ih.2.1, fun _ => ih.2.2 (by omega)⟩
  | case2 mth yr hge =>
    rw [norm_month_low, if_neg hge]
    exact ⟨rfl, by omega, fun h => h⟩

lemma norm_month_high_spec (mth yr : ℤ) :
    (norm_month_high mth yr).2 * 12 + (norm_month_high mth yr).1 = yr * 12 + mth ∧
    (norm_month_high mth yr).1 ≤ 12 ∧
    (1 ≤ mth → 1 ≤ (norm_month_high mth yr).1) := by
  induction mth, yr using norm_month_high.induct with
  | case1 mth yr hgt ih =>
    rw [norm_month_high, if_pos hgt]
    have hih := ih.1
    exact ⟨by omega, ih.2.1, fun _ => ih.2.2 (by omega)⟩
  | case2 mth yr hle =>
    rw [norm_month_high, if_neg hle]
    exact ⟨rfl, by omega, fun h => h⟩

/-- C9: for the month granularity and every integer offset, the period
range function returns exactly the first and last calendar day of the month
lying `off` months from the current month (characterized by
`y×12 + month = today.year×12 + today.month + off` with `month ∈ [1,12]`),
across year boundaries, with February given 29 days in leap years. -/
theorem C9_month_period_range (today : Date) (off : ℤ)
    (hm1 : 1 ≤ today.month) (hm2 : today.month ≤ 12) :
    ∃ y mth : ℤ, 1 ≤ mth ∧ mth ≤ 12 ∧
      y * 12 + mth = today.year * 12 + today.month + off ∧
      (get_period_range_month today off).1 = ⟨y, mth, 1⟩ ∧
      (get_period_range_month today off).2 = ⟨y, mth, days_in_month y mth⟩ ∧
      (mth = 2 → is_leap y = true → (get_period_range_month today off).2.day = 29) := by
  obtain ⟨l1, l2, l3⟩ := norm_month_low_spec (today.month + off) today.year
  obtain ⟨h1, h2, h3⟩ := norm_month_high_spec (norm_month_low (today.month + off)
    today.year).1 (norm_month_low (today.month + off) today.year).2
  set p := norm_month_low (today.month + off) today.year with hp
  set q := norm_month_high p.1 p.2 with hq
  have hqm1 : 1 ≤ q.1 := h3 l2
  have hqm2 : q.1 ≤ 12 := h2
  have hinv : q.2 * 12 + q.1 = today.year * 12 + (today.month + off) := by
    rw [h1, l1]
  have hend : (get_period_range_month today off).2 = ⟨q.2, q.1, days_in_month q.2 q.1⟩ := by
    show (if q.1 = 12 then pred_day ⟨q.2 + 1, 1, 1⟩ else pred_day ⟨q.2, q.1 + 1, 1⟩) = _
    by_cases h12 : q.1 = 12
    · rw [if_pos h12, h12, pred_day_jan_first]
      norm_num [days_in_month]
    · rw [if_neg h12, pred_day_first_of_month q.2 (q.1 + 1) (by omega)]
      norm_num
  refine ⟨q.2, q.1, hqm1, hqm2, by omega, rfl, hend, ?_⟩
  intro hm2' hleap
  rw [hend, hm2']
  simp [days_in_month, hleap]

/-- C9 witness: from January 2024, offset 1 lands on February 2024, a leap
month with 29 days; the characterization applies. -/
theorem C9_month_period_range_witness :
    1 ≤ (Date.mk 2024 1 15).month ∧ (Date.mk 2024 1 15).month ≤ 12 ∧
    ∃ y mth : ℤ, 1 ≤ mth ∧ mth ≤ 12 ∧
      y * 12 + mth = (Date.mk 2024 1 15).year * 12 + (Date.mk 2024 1 15).month + 1 ∧
      (get_period_range_month (Date.mk 2024 1 15) 1).1 = ⟨y, mth, 1⟩ ∧
      (get_period_range_month (Date.mk 2024 1 15) 1).2 = ⟨y, mth, days_in_month y mth⟩ ∧
      (mth = 2 → is_leap y = true →
        (get_period_range_month (Date.mk 2024 1 15) 1).2.day = 29) :=
  ⟨by norm_num, by norm_num,
   C9_month_period_range (Date.mk 2024 1 15) 1 (by norm_num) (by norm_num)⟩

lemma truthy_ne_zero {o : Option ℚ} (ht : truthy o = true) : orZero o ≠ 0 := by
  cases o with
  | none => simp [truthy] at ht
  | some v =>
    simp only [truthy, bne_iff_ne, ne_eq, decide_eq_true_eq] at ht
    simpa [orZero] using ht

lemma sleep_recovery_score_checked_eq (m : DailyMetric)
    (hs : truthy m.sleep_seconds = true) :
    sleep_recovery_score_checked m = some (sleep_recovery_score m) := by
  have hne := truthy_ne_zero hs
  simp only [sleep_recovery_score_checked, sleep_recovery_score]
  split_ifs with h
  · simp only [qdiv, if_neg hne, Option.map_some']
  · rfl

lemma recovery_components_checked_eq (m : DailyMetric) :
    recovery_components_checked m = some (recovery_components m) := by
  simp only [recovery_components_checked, recovery_components]
  cases hs : truthy m.sleep_seconds
  · simp [hs]
  · rw [if_pos rfl, if_pos rfl, sleep_recovery_score_checked_eq m hs]
    rfl

lemma recovery_weights_pos (m : DailyMetric) :
    ∀ p ∈ recovery_components m, 0 < p.2 := by
  intro p hp
  simp only [recovery_components, List.mem_append] at hp
  rcases hp with (hp | hp) | hp <;>
    [skip; skip; skip] <;>
    · split at hp
      · simp only [List.mem_singleton] at hp
        subst hp
        norm_num
      · simp at hp

lemma apply_recovery_checked_eq (m : DailyMetric) :
    apply_recovery_checked m = some (apply_recovery m) := by
  simp only [apply_recovery_checked, apply_recovery]
  rw [recovery_components_checked_eq, Option.some_bind]
  split_ifs with h
  · rfl
  · have hW : ((recovery_components m).map Prod.snd).sum ≠ 0 := by
      refine ne_of_gt (List.sum_pos _ ?_ ?_)
      · intro x hx
        obtain ⟨p, hp, rfl⟩ := List.mem_map.mp hx
        exact recovery_weights_pos m p hp
      · simpa using h
    simp only [qdiv, if_neg hW, Option.map_some']

lemma apply_sleep_perf_checked_eq (m : DailyMetric) :
    apply_sleep_performance_checked m = some (apply_sleep_performance m) := by
  simp only [apply_sleep_performance_checked, apply_sleep_performance]
  split_ifs with h1 h2
  · have hne : orZero m.sleep_seconds ≠ 0 := by
      simp only [Bool.and_eq_true, decide_eq_true_eq] at h2
      exact ne_of_gt h2.2
    simp only [qdiv, if_neg hne, Option.some_bind, Option.map_some']
  · rfl
  · rfl

lemma bio_checked_eq (m : DailyMetric) (age : ℚ) :
    calculate_biological_age_checked m age = some (calculate_biological_age m age) := by
  simp only [calculate_biological_age_checked, calculate_biological_age]
  split_ifs with h
  · rfl
  · have hne : ((impacts_list m).length : ℚ) ≠ 0 := by
      have h2 : 0 < (impacts_list m).length := by omega
      exact_mod_cast Nat.pos_iff_ne_zero.mp h2
    simp only [qdiv, if_neg hne, Option.map_some']

/-- C10: on every DailyRecord — any combination of null, zero, or present
raw values — the full score and biological-age computation runs without any
division by zero: the checked evaluation, in which every
variable-denominator division (sleep-phase fractions, the component weight
sum, the factor mean) signals a zero denominator, always succeeds and
returns exactly the total computation's result; absence is carried as null
field values inside a successful result, never as a failure. -/
theorem C10_never_raises (m : DailyMetric) (age : ℚ) :
    calculate_scores_checked m age = some (calculate_scores m age) := by
  simp only [calculate_scores_checked, calculate_scores]
  rw [apply_recovery_checked_eq, Option.some_bind, apply_sleep_perf_checked_eq,
    Option.some_bind, bio_checked_eq]

end GarminWhoop
